import Mathlib

/-!
Shallow embedding of the order/payment/provisioning workflow of a hosting
reseller application (Next.js server actions over a Firebase Realtime
Database).  The database is modelled as an explicit state value `DB`; each
server action becomes a pure function from the state (plus the values the
source obtains from non-deterministic sources: generated push keys, random
credentials, the current time, external API outcomes) to the new state and
the action's result.  Firebase paths become fields of `DB`; `push` becomes
appending a keyed entry; `update` of a field on an existing record becomes a
map over the corresponding list (path creation for absent records is not
modelled — no claim depends on it); a JavaScript `throw` becomes an
`Except.error` result paired with the unchanged state, since every modelled
throw happens before any write.  Optional / falsy string fields are modelled
as `String` with `""` standing for `undefined` where JavaScript treats both
alike.
-/

/-- Status of a Service record (the string union used by the source). -/
inductive ServiceStatus where
  | Active
  | Pending
  | Suspended
  | Terminated
  | Banned
  | PendingActivation
  deriving DecidableEq

/-- Status of an Invoice record. -/
inductive InvoiceStatus where
  | Paid
  | Unpaid
  deriving DecidableEq

/-- A catalog Plan as passed to `orderService` (only the fields the workflow
reads; `price` is a non-negative amount). -/
structure Plan where
  id : String
  name : String
  price : Nat
  deriving DecidableEq

/-- The cPanel credential bundle written onto a Service by
`createSubdomainFlow`. -/
structure CpanelCred where
  username : String
  password : String
  token : String
  tokenExpires : Nat
  deriving DecidableEq

/-- A Service record stored under `users/<userId>/services/<serviceId>`.
`subdomain = ""` models the field being absent (falsy in the source). -/
structure Service where
  id : String
  planId : String
  name : String
  price : Nat
  orderDate : String
  status : ServiceStatus
  subdomain : String
  cpanel : Option CpanelCred
  deriving DecidableEq

/-- One entry of the `users/*/services/*` tree, flattened with its path keys. -/
structure SvcEntry where
  userId : String
  serviceId : String
  svc : Service
  deriving DecidableEq

/-- A user profile record under `users/<userId>` (the fields `orderService`
reads for the invoice snapshot; `""` models an absent field). -/
structure UserProfile where
  email : String
  name : String
  deriving DecidableEq

/-- The denormalized user details written into an invoice. -/
structure UserDetails where
  email : String
  name : String
  deriving DecidableEq

/-- Billing-company settings under `settings/invoice`, denormalized into each
invoice at creation. -/
structure CompanySettings where
  companyName : String
  address : String
  city : String
  postalCode : String
  country : String
  taxId : String
  deriving DecidableEq

/-- An Invoice record under `invoices/<key>`. -/
structure Invoice where
  userId : String
  serviceId : String
  serviceName : String
  amount : Nat
  status : InvoiceStatus
  invoiceDate : String
  dueDate : String
  userEmail : String
  companyDetails : Option CompanySettings
  userDetails : UserDetails
  deriving DecidableEq

/-- A Subdomain reservation record under `subdomains/<key>`. -/
structure SubdomainRec where
  userId : String
  subdomain : String
  createdAt : String
  status : String
  serviceId : Option String
  deriving DecidableEq

/-- The ephemeral credential bundle written under `pannelneed/<username>` by
`handleAquaPanelLogin`. -/
structure PanelCred where
  password : String
  access_token : String
  expires_at : Nat
  userId : String
  serviceId : String
  deriving DecidableEq

/-- The Firebase Realtime Database state visible to the modelled actions.
`freeUserLimitEnabled` stands for `settings/restrictions` existing with that
flag truthy; `domain` for `settings/domain/domain` (`none` = node absent);
`invoiceSettings` for `settings/invoice` (`none` = absent, written as an
empty object into invoices).  Keyed collections are association lists in
store order. -/
structure DB where
  freeUserLimitEnabled : Bool
  domain : Option String
  invoiceSettings : Option CompanySettings
  users : List (String × UserProfile)
  services : List SvcEntry
  invoices : List (String × Invoice)
  subdomains : List (String × SubdomainRec)
  pannelneed : List (String × PanelCred)
  deriving DecidableEq

/-- Look up a service at `users/<uid>/services/<sid>` (first matching entry). -/
def lookupService (services : List SvcEntry) (uid sid : String) : Option SvcEntry :=
  services.find? fun e => e.userId == uid && e.serviceId == sid

/-- Firebase `update(ref(users/<uid>/services/<sid>), \x7bstatus\x7d)` on the
flattened service list: set the status of every entry at that path. -/
def setServiceStatus (services : List SvcEntry) (uid sid : String) (st : ServiceStatus) :
    List SvcEntry :=
  services.map fun e =>
    if e.userId == uid && e.serviceId == sid then
      { e with svc := { e.svc with status := st } }
    else e

/-- The key of the first invoice whose `serviceId` equals `sid`: the source
queries `invoices` by child `serviceId` and takes `Object.keys(...)[0]`. -/
def firstInvoiceKeyFor (invoices : List (String × Invoice)) (sid : String) : Option String :=
  ((invoices.filter fun kv => kv.2.serviceId == sid).head?).map (·.1)

/-- Firebase `update(ref(invoices/<k>), \x7bstatus\x7d)`: set the status of the
invoice(s) stored under key `k`. -/
def setInvoiceStatus (invoices : List (String × Invoice)) (k : String) (st : InvoiceStatus) :
    List (String × Invoice) :=
  invoices.map fun kv => if kv.1 == k then (kv.1, { kv.2 with status := st }) else kv

/-- The shared pay-the-first-matching-invoice step of the webhook handler and
`updateServiceStatus`: locate the first invoice for `sid` and mark it Paid;
if none matches, leave the invoices unchanged. -/
def payFirstInvoice (invoices : List (String × Invoice)) (sid : String) :
    List (String × Invoice) :=
  match firstInvoiceKeyFor invoices sid with
  | some k => setInvoiceStatus invoices k InvoiceStatus.Paid
  | none => invoices

/-- The free-plan restriction check of `orderService`: whether the user
already owns a service with price 0 (`Object.values(services).some(s =>
s.price === 0)` over `users/<uid>/services`). -/
def hasExistingFreeService (db : DB) (userId : String) : Bool :=
  (db.services.filter fun e => e.userId == userId).any fun e => e.svc.price == 0

/-- The denormalized user details `orderService` snapshots into the invoice:
profile email and name when the user record exists (name falling back to
"Valued Customer" when falsy), placeholders otherwise. -/
def invoiceUserDetails (db : DB) (userId : String) : UserDetails :=
  match db.users.find? fun kv => kv.1 == userId with
  | some kv =>
      { email := kv.2.email
        name := if kv.2.name == "" then "Valued Customer" else kv.2.name }
  | none => { email := "N/A", name := "Valued Customer" }

/-- The `orderService` server action.  `newServiceKey` and `newInvoiceKey`
stand for the keys `push` generates, `now` for `new Date().toISOString()`.
A thrown error becomes `Except.error` with the unchanged state; on success
the new state and the created service data are returned. -/
def orderService (db : DB) (plan : Plan) (userId : String) (paymentMethod : String)
    (newServiceKey newInvoiceKey : String) (now : String) :
    DB × Except String Service :=
  if userId == "" || plan.id == "" then
    (db, Except.error "User ID and Plan are required to place an order.")
  else
    let isFreePlan : Bool := plan.price == 0
    if isFreePlan && db.freeUserLimitEnabled && hasExistingFreeService db userId then
      (db, Except.error "You have reached the limit for free services. You can only have one free service at a time.")
    else if newServiceKey == "" then
      (db, Except.error "Failed to generate a unique service ID.")
    else
      let status := if isFreePlan then ServiceStatus.Active else ServiceStatus.Pending
      let svc : Service :=
        { id := newServiceKey
          planId := plan.id
          name := plan.name
          price := plan.price
          orderDate := now
          status := status
          subdomain := ""
          cpanel := none }
      let userDetails := invoiceUserDetails db userId
      let inv : Invoice :=
        { userId := userId
          serviceId := newServiceKey
          serviceName := plan.name
          amount := plan.price
          status := if isFreePlan then InvoiceStatus.Paid else InvoiceStatus.Unpaid
          invoiceDate := now
          dueDate := now
          userEmail := userDetails.email
          companyDetails := db.invoiceSettings
          userDetails := userDetails }
      ({ db with
          services := db.services ++ [⟨userId, newServiceKey, svc⟩]
          invoices := db.invoices ++ [(newInvoiceKey, inv)] },
       Except.ok svc)

/-- The `updateServiceStatus` server action: set the service status, and when
the new status is Active additionally mark the first invoice found for that
serviceId as Paid. -/
def updateServiceStatus (db : DB) (userId serviceId : String) (status : ServiceStatus) :
    DB × Except String Unit :=
  if userId == "" || serviceId == "" then
    (db, Except.error "User ID and Service ID are required.")
  else
    let services' := setServiceStatus db.services userId serviceId status
    let invoices' :=
      if status == ServiceStatus.Active then payFirstInvoice db.invoices serviceId
      else db.invoices
    ({ db with services := services', invoices := invoices' }, Except.ok ())

/-- A Stripe event as obtained from `stripe.webhooks.constructEvent`: its type
string and the checkout-session metadata attached at session creation
(`""` models a missing metadata field, which the source treats alike). -/
structure WebhookEvent where
  type : String
  muserId : String
  mplanId : String
  mserviceId : String
  deriving DecidableEq

/-- The responses the webhook route returns. -/
inductive WebhookResp where
  | notConfigured
  | sigError
  | missingMetadata
  | received
  deriving DecidableEq

/-- The HTTP status code of each webhook response. -/
def respStatus : WebhookResp → Nat
  | WebhookResp.notConfigured => 500
  | WebhookResp.sigError => 400
  | WebhookResp.missingMetadata => 200
  | WebhookResp.received => 200

/-- The body of the webhook route after a verified event is in hand: only
`checkout.session.completed` with complete metadata mutates state (first
matching invoice → Paid, service → Active); every other event is
acknowledged unchanged. -/
def handleEvent (db : DB) (ev : WebhookEvent) : DB × WebhookResp :=
  if ev.type == "checkout.session.completed" then
    if ev.muserId == "" || ev.mplanId == "" || ev.mserviceId == "" then
      (db, WebhookResp.missingMetadata)
    else
      let invoices' := payFirstInvoice db.invoices ev.mserviceId
      let services' := setServiceStatus db.services ev.muserId ev.mserviceId ServiceStatus.Active
      ({ db with invoices := invoices', services := services' }, WebhookResp.received)
  else
    (db, WebhookResp.received)

/-- The webhook route `POST`.  `secretKey`/`webhookSecret` model the stored
Stripe secrets (`none` or `""` is unconfigured), `sig` the
`stripe-signature` header, and `constructed` the outcome of
`stripe.webhooks.constructEvent` on the raw body against the signing secret
(`none` = verification threw).  The source throws on a missing header before
calling `constructEvent`; both throws land in the same 400 response. -/
def webhookPOST (db : DB) (secretKey webhookSecret : Option String)
    (sig : Option String) (constructed : Option WebhookEvent) : DB × WebhookResp :=
  if secretKey.getD "" == "" || webhookSecret.getD "" == "" then
    (db, WebhookResp.notConfigured)
  else
    match sig with
    | none => (db, WebhookResp.sigError)
    | some _ =>
      match constructed with
      | none => (db, WebhookResp.sigError)
      | some ev => handleEvent db ev

/-- The result object of `handleAquaPanelLogin`. -/
structure LoginResult where
  success : Bool
  message : String
  username : Option String
  password : Option String
  token : Option String
  deriving DecidableEq

/-- A failed `handleAquaPanelLogin` result carrying only a message. -/
def loginFailure (msg : String) : LoginResult :=
  { success := false, message := msg, username := none, password := none, token := none }

/-- The characters of `s` up to (excluding) the first dot: `s.split(char)[0]`
for the dot separator. -/
def takeUntilDot : List Char → List Char
  | [] => []
  | c :: rest => if c == '.' then [] else c :: takeUntilDot rest

/-- The panel username derived from a full subdomain: the label before the
first dot (`fullSubdomain.split(".")[0]`). -/
def subdomainLabelOf (s : String) : String :=
  String.mk (takeUntilDot s.data)

/-- Firebase `set(ref(<collection>/<k>), v)` on an association list: replace
the entry at key `k`, or append one when the key is absent. -/
def setEntry (l : List (String × PanelCred)) (k : String) (v : PanelCred) :
    List (String × PanelCred) :=
  if l.any fun kv => kv.1 == k then
    l.map fun kv => if kv.1 == k then (k, v) else kv
  else l ++ [(k, v)]

/-- The `handleAquaPanelLogin` server action.  `password`/`token` stand for
the generated random hex strings, `nowSec` for `Date.now()/1000`.  The
source requires the ids to be non-empty, the service to exist under the
user, and its `subdomain` field to be truthy; it then writes a fresh
credential bundle under `pannelneed/<username>` and reports success. -/
def handleAquaPanelLogin (db : DB) (userId serviceId : String)
    (password token : String) (nowSec : Nat) : DB × LoginResult :=
  if userId == "" || serviceId == "" then
    (db, loginFailure "User ID and Service ID are required.")
  else
    match lookupService db.services userId serviceId with
    | none => (db, loginFailure "Service not found.")
    | some e =>
      let fullSubdomain := e.svc.subdomain
      if fullSubdomain == "" then
        (db, loginFailure "No subdomain is assigned to this service.")
      else
        let username := subdomainLabelOf fullSubdomain
        let expires_at := nowSec + 3600
        let cred : PanelCred :=
          { password := password
            access_token := token
            expires_at := expires_at
            userId := userId
            serviceId := serviceId }
        ({ db with pannelneed := setEntry db.pannelneed username cred },
         { success := true
           message := "Temporary login session created."
           username := some username
           password := some password
           token := some token })

/-- Whether a character is a lowercase ASCII letter or a digit: the character
class of the label regex. -/
def isLowerDigit (c : Char) : Bool :=
  ('a' ≤ c && c ≤ 'z') || ('0' ≤ c && c ≤ '9')

/-- Split a character list on hyphens into its groups (a leading, trailing or
doubled hyphen yields an empty group). -/
def splitHyphen : List Char → List (List Char)
  | [] => [[]]
  | c :: rest =>
    let r := splitHyphen rest
    if c == '-' then [] :: r
    else
      match r with
      | g :: gs => (c :: g) :: gs
      | [] => [[c]]

/-- Acceptance of the zod label regex of `CreateSubdomainInputSchema`: every
hyphen-separated group is non-empty and made of lowercase letters and
digits. -/
def labelRegexOk (cs : List Char) : Bool :=
  (splitHyphen cs).all fun g => !g.isEmpty && g.all isLowerDigit

/-- The full zod validation of the `subdomain` field: length between 3 and 30
and the regex of lowercase alphanumerics with single internal hyphens. -/
def validLabel (s : String) : Bool :=
  decide (3 ≤ s.data.length) && decide (s.data.length ≤ 30) && labelRegexOk s.data

/-- The input of `createSubdomain` (after the zod schema's shape). -/
structure CreateSubdomainInput where
  subdomain : String
  userId : String
  serviceId : Option String
  deriving DecidableEq

/-- The output object of the subdomain flow. -/
structure CreateSubdomainOutput where
  success : Bool
  message : String
  subdomain : Option String
  deriving DecidableEq

/-- The Service update `createSubdomainFlow` performs when a serviceId is
supplied: assign the subdomain, flip the status to Active and attach a fresh
cPanel credential bundle. -/
def updateServiceForSubdomain (services : List SvcEntry) (uid sid fullSubdomain label : String)
    (password token : String) (tokenExpires : Nat) : List SvcEntry :=
  services.map fun e =>
    if e.userId == uid && e.serviceId == sid then
      { e with svc :=
        { e.svc with
            subdomain := fullSubdomain
            status := ServiceStatus.Active
            cpanel := some
              { username := label
                password := password
                token := token
                tokenExpires := tokenExpires } } }
    else e

/-- The `createSubdomainFlow` Genkit flow.  `apiSuccess`/`apiMessage` model
the outcome of the external `createSubdomainOnServer` tool call; `newKey`
the generated push key, `password`/`token` the generated random hex
strings, `now` the creation timestamp, `tokenExpires` the expiry instant.
Returns the new state, the flow output, and whether the external
provisioning API was invoked. -/
def createSubdomainFlow (db : DB) (input : CreateSubdomainInput)
    (apiSuccess : Bool) (apiMessage : String) (newKey : String)
    (password token : String) (now : String) (tokenExpires : Nat) :
    DB × CreateSubdomainOutput × Bool :=
  if (db.domain.getD "") == "" then
    (db,
     { success := false
       message := "The main domain is not configured by the administrator."
       subdomain := none },
     false)
  else
    let domainToUse := db.domain.getD ""
    let fullSubdomain := input.subdomain ++ "." ++ domainToUse
    if db.subdomains.any fun kv => kv.2.subdomain == fullSubdomain then
      (db,
       { success := false
         message := "The subdomain '" ++ fullSubdomain ++ "' is already taken. Please choose another one."
         subdomain := none },
       false)
    else if !apiSuccess then
      (db, { success := false, message := apiMessage, subdomain := none }, true)
    else
      let newRec : SubdomainRec :=
        { userId := input.userId
          subdomain := fullSubdomain
          createdAt := now
          status := "Active"
          serviceId := input.serviceId }
      let subdomains' := db.subdomains ++ [(newKey, newRec)]
      let services' :=
        match input.serviceId with
        | some sid =>
            updateServiceForSubdomain db.services input.userId sid fullSubdomain
              input.subdomain password token tokenExpires
        | none => db.services
      ({ db with subdomains := subdomains', services := services' },
       { success := true
         message := "Subdomain '" ++ fullSubdomain ++ "' has been successfully created and is now active."
         subdomain := some fullSubdomain },
       true)

/-- The exported `createSubdomain` wrapper: zod-validate the input and throw
(`Except.error`) before the flow runs on any failure, else run the flow.
The source interpolates the flattened zod field errors into the thrown
message; the model uses one fixed message since only the rejection itself
and the untouched state matter. -/
def createSubdomain (db : DB) (input : CreateSubdomainInput)
    (apiSuccess : Bool) (apiMessage : String) (newKey : String)
    (password token : String) (now : String) (tokenExpires : Nat) :
    DB × Except String CreateSubdomainOutput × Bool :=
  if !(validLabel input.subdomain && input.userId != "") then
    (db, Except.error "Invalid input: the subdomain label or user ID failed validation.", false)
  else
    let r := createSubdomainFlow db input apiSuccess apiMessage newKey password token now tokenExpires
    (r.1, Except.ok r.2.1, r.2.2)

/-- One invocation of `createSubdomainFlow` with all its non-deterministic
inputs fixed. -/
structure FlowCall where
  input : CreateSubdomainInput
  apiSuccess : Bool
  apiMessage : String
  newKey : String
  password : String
  token : String
  now : String
  tokenExpires : Nat
  deriving DecidableEq

/-- The state after one flow call. -/
def runFlow (db : DB) (c : FlowCall) : DB :=
  (createSubdomainFlow db c.input c.apiSuccess c.apiMessage c.newKey c.password c.token
    c.now c.tokenExpires).1

/-- The state after a sequence of flow calls executed one after another. -/
def runFlows (db : DB) : List FlowCall → DB
  | [] => db
  | c :: cs => runFlows (runFlow db c) cs

/-- All fully-qualified subdomain names on record are pairwise distinct. -/
def namesNodup (db : DB) : Prop :=
  (db.subdomains.map fun kv => kv.2.subdomain).Nodup

/-- Look up the invoice stored under key `k` (first entry with that key). -/
def lookupInvoice (invoices : List (String × Invoice)) (k : String) : Option Invoice :=
  (invoices.find? fun kv => kv.1 == k).map (·.2)

/-- A sample free service used by the concrete states below. -/
def sampleFreeService : Service :=
  { id := "s0", planId := "p0", name := "Starter", price := 0, orderDate := "2024-01-01",
    status := ServiceStatus.Suspended, subdomain := "", cpanel := none }

/-- Concrete state for the free-limit scenario: the restriction flag is on and
user u1 already owns a zero-price service (status Suspended). -/
def dbFreeSvc : DB :=
  { freeUserLimitEnabled := true
    domain := none
    invoiceSettings := none
    users := []
    services := [⟨"u1", "s0", sampleFreeService⟩]
    invoices := []
    subdomains := []
    pannelneed := [] }

/-- Concrete state for a fresh order: the restriction flag is on but u1 owns
no service yet. -/
def dbOrder : DB :=
  { freeUserLimitEnabled := true
    domain := none
    invoiceSettings := none
    users := [("u1", { email := "a@b.c", name := "Alice" })]
    services := []
    invoices := []
    subdomains := []
    pannelneed := [] }

/-- A sample pending paid service awaiting payment confirmation. -/
def samplePendingService : Service :=
  { id := "s1", planId := "p1", name := "Pro", price := 499, orderDate := "2024-01-02",
    status := ServiceStatus.Pending, subdomain := "", cpanel := none }

/-- A sample unpaid invoice for service s1. -/
def sampleUnpaidInvoice : Invoice :=
  { userId := "u1", serviceId := "s1", serviceName := "Pro", amount := 499,
    status := InvoiceStatus.Unpaid, invoiceDate := "2024-01-02", dueDate := "2024-01-02",
    userEmail := "a@b.c", companyDetails := none,
    userDetails := { email := "a@b.c", name := "Alice" } }

/-- Concrete state for webhook and admin-activation scenarios: u1 owns the
pending paid service s1 with its unpaid invoice under key i1. -/
def dbPaid : DB :=
  { freeUserLimitEnabled := false
    domain := none
    invoiceSettings := none
    users := [("u1", { email := "a@b.c", name := "Alice" })]
    services := [⟨"u1", "s1", samplePendingService⟩]
    invoices := [("i1", sampleUnpaidInvoice)]
    subdomains := []
    pannelneed := [] }

/-- A valid successful-payment webhook event for service s1. -/
def sampleEvent : WebhookEvent :=
  { type := "checkout.session.completed", muserId := "u1", mplanId := "p1", mserviceId := "s1" }

/-- Concrete state where shop.example.com is already reserved. -/
def dbSub : DB :=
  { freeUserLimitEnabled := false
    domain := some "example.com"
    invoiceSettings := none
    users := []
    services := []
    invoices := []
    subdomains := [("k0",
      { userId := "u0", subdomain := "shop.example.com", createdAt := "2024-01-01",
        status := "Active", serviceId := none })]
    pannelneed := [] }

/-- Concrete state with a configured root domain and no subdomains yet. -/
def dbEmptySub : DB :=
  { freeUserLimitEnabled := false
    domain := some "example.com"
    invoiceSettings := none
    users := []
    services := [⟨"u1", "s1", samplePendingService⟩]
    invoices := []
    subdomains := []
    pannelneed := [] }

/-- First provisioning call of the duplicate-serviceId scenario: label shop
for service s1. -/
def callShop : FlowCall :=
  { input := { subdomain := "shop", userId := "u1", serviceId := some "s1" }
    apiSuccess := true, apiMessage := "", newKey := "k1", password := "pw1",
    token := "tk1", now := "2024-01-03", tokenExpires := 100 }

/-- Second provisioning call of the duplicate-serviceId scenario: label blog
for the same service s1. -/
def callBlog : FlowCall :=
  { input := { subdomain := "blog", userId := "u1", serviceId := some "s1" }
    apiSuccess := true, apiMessage := "", newKey := "k2", password := "pw2",
    token := "tk2", now := "2024-01-04", tokenExpires := 200 }

/-- A sample suspended service that nevertheless has a subdomain assigned. -/
def sampleSuspendedWithSub : Service :=
  { id := "s1", planId := "p1", name := "Pro", price := 499, orderDate := "2024-01-02",
    status := ServiceStatus.Suspended, subdomain := "shop.example.com", cpanel := none }

/-- Concrete state for the panel-login scenario: u1 owns s1, the service has a
subdomain but its status is Suspended, not Active. -/
def dbPanel : DB :=
  { freeUserLimitEnabled := false
    domain := some "example.com"
    invoiceSettings := none
    users := []
    services := [⟨"u1", "s1", sampleSuspendedWithSub⟩]
    invoices := []
    subdomains := []
    pannelneed := [] }

/-- C1: a zero-price order under the enabled free-user restriction fails with
the limit error when the user already owns a zero-price service of any
status, leaving the whole state (hence services and invoices) unchanged. -/
theorem orderService_freeLimit_rejects (db : DB) (plan : Plan)
    (userId paymentMethod newServiceKey newInvoiceKey now : String)
    (huid : userId ≠ "") (hpid : plan.id ≠ "")
    (hprice : plan.price = 0)
    (hflag : db.freeUserLimitEnabled = true)
    (hfree : hasExistingFreeService db userId = true) :
    orderService db plan userId paymentMethod newServiceKey newInvoiceKey now =
      (db, Except.error "You have reached the limit for free services. You can only have one free service at a time.") := by
  simp [orderService, huid, hpid, hprice, hflag, hfree]

/-- C1 witness: the rejection at a concrete state where u1 owns a suspended
free service and orders another free plan. -/
theorem orderService_freeLimit_rejects_witness :
    orderService dbFreeSvc { id := "p1", name := "Free", price := 0 } "u1" "upi" "k1" "i1" "t" =
      (dbFreeSvc, Except.error "You have reached the limit for free services. You can only have one free service at a time.") :=
  orderService_freeLimit_rejects dbFreeSvc { id := "p1", name := "Free", price := 0 }
    "u1" "upi" "k1" "i1" "t" (by decide) (by decide) rfl rfl (by decide)

/-- C2: a successful order creates the service with status Active and its
invoice Paid when the plan price is 0, and Pending/Unpaid otherwise, the
invoice referencing the new service with amount equal to the plan price at
order time. -/
theorem orderService_success_creates (db : DB) (plan : Plan)
    (userId paymentMethod newServiceKey newInvoiceKey now : String)
    (huid : userId ≠ "") (hpid : plan.id ≠ "") (hkey : newServiceKey ≠ "")
    (hlim : ¬(plan.price = 0 ∧ db.freeUserLimitEnabled = true ∧ hasExistingFreeService db userId = true)) :
    (∃ s, (orderService db plan userId paymentMethod newServiceKey newInvoiceKey now).2 = Except.ok s
        ∧ s.status = (if plan.price = 0 then ServiceStatus.Active else ServiceStatus.Pending))
    ∧ ((orderService db plan userId paymentMethod newServiceKey newInvoiceKey now).1.services.getLast?).map
        (fun e => (e.userId, e.serviceId, e.svc.status)) =
        some (userId, newServiceKey, if plan.price = 0 then ServiceStatus.Active else ServiceStatus.Pending)
    ∧ ((orderService db plan userId paymentMethod newServiceKey newInvoiceKey now).1.invoices.getLast?).map
        (fun kv => (kv.2.serviceId, kv.2.amount, kv.2.status)) =
        some (newServiceKey, plan.price, if plan.price = 0 then InvoiceStatus.Paid else InvoiceStatus.Unpaid) := by
  by_cases hp : plan.price = 0
  · by_cases hf : db.freeUserLimitEnabled = true
    · have hh : hasExistingFreeService db userId = false := by
        rcases Bool.eq_false_or_eq_true (hasExistingFreeService db userId) with h | h
        · exact absurd ⟨hp, hf, h⟩ hlim
        · exact h
      simp [orderService, huid, hpid, hkey, hp, hf, hh, List.getLast?_concat]
    · have hf' : db.freeUserLimitEnabled = false := by
        revert hf; cases db.freeUserLimitEnabled <;> simp
      simp [orderService, huid, hpid, hkey, hp, hf', List.getLast?_concat]
  · simp [orderService, huid, hpid, hkey, hp, List.getLast?_concat]

/-- C2 witness: ordering a 499-price plan at a concrete state yields a Pending
service and an Unpaid invoice of amount 499. -/
theorem orderService_success_creates_witness :
    (∃ s, (orderService dbOrder { id := "p1", name := "Pro", price := 499 } "u1" "upi" "k1" "i1" "t").2 = Except.ok s
        ∧ s.status = (if (499:Nat) = 0 then ServiceStatus.Active else ServiceStatus.Pending))
    ∧ ((orderService dbOrder { id := "p1", name := "Pro", price := 499 } "u1" "upi" "k1" "i1" "t").1.services.getLast?).map
        (fun e => (e.userId, e.serviceId, e.svc.status)) =
        some ("u1", "k1", if (499:Nat) = 0 then ServiceStatus.Active else ServiceStatus.Pending)
    ∧ ((orderService dbOrder { id := "p1", name := "Pro", price := 499 } "u1" "upi" "k1" "i1" "t").1.invoices.getLast?).map
        (fun kv => (kv.2.serviceId, kv.2.amount, kv.2.status)) =
        some ("k1", 499, if (499:Nat) = 0 then InvoiceStatus.Paid else InvoiceStatus.Unpaid) :=
  orderService_success_creates dbOrder { id := "p1", name := "Pro", price := 499 }
    "u1" "upi" "k1" "i1" "t" (by decide) (by decide) (by decide) (by decide)

/-- C4: with Stripe configured, a webhook request whose signature header is
missing or whose signature verification throws is answered with the 400
error response and the state is untouched. -/
theorem webhookPOST_sig_failure (db : DB) (sk ws : String)
    (sig : Option String) (constructed : Option WebhookEvent)
    (hsk : sk ≠ "") (hws : ws ≠ "")
    (h : sig = none ∨ constructed = none) :
    webhookPOST db (some sk) (some ws) sig constructed = (db, WebhookResp.sigError)
    ∧ respStatus WebhookResp.sigError = 400 := by
  refine ⟨?_, rfl⟩
  rcases h with h | h
  · subst h; simp [webhookPOST, hsk, hws]
  · subst h; cases sig <;> simp [webhookPOST, hsk, hws]

/-- C4 witness: a tampered-signature request against the concrete pending
state is rejected with 400 and changes nothing. -/
theorem webhookPOST_sig_failure_witness :
    webhookPOST dbPaid (some "sk") (some "ws") (some "bad") none = (dbPaid, WebhookResp.sigError)
    ∧ respStatus WebhookResp.sigError = 400 :=
  webhookPOST_sig_failure dbPaid "sk" "ws" (some "bad") none (by decide) (by decide) (Or.inr rfl)

/-- C5: an authenticated webhook event of any type other than
checkout.session.completed is acknowledged with the success response and
leaves the whole state (hence all services and invoices) unchanged. -/
theorem webhookPOST_other_event_ignored (db : DB) (sk ws sig : String) (ev : WebhookEvent)
    (hsk : sk ≠ "") (hws : ws ≠ "")
    (h : ev.type ≠ "checkout.session.completed") :
    webhookPOST db (some sk) (some ws) (some sig) (some ev) = (db, WebhookResp.received) := by
  simp [webhookPOST, handleEvent, hsk, hws, h]

/-- C5 witness: an invoice.created event at the concrete pending state is
acknowledged and changes nothing. -/
theorem webhookPOST_other_event_ignored_witness :
    webhookPOST dbPaid (some "sk") (some "ws") (some "sig")
      (some { type := "invoice.created", muserId := "u1", mplanId := "p1", mserviceId := "s1" }) =
      (dbPaid, WebhookResp.received) :=
  webhookPOST_other_event_ignored dbPaid "sk" "ws" "sig"
    { type := "invoice.created", muserId := "u1", mplanId := "p1", mserviceId := "s1" }
    (by decide) (by decide) (by decide)

/-- C7: when the computed fully-qualified name collides with an existing
Subdomain record, the flow fails with the already-taken message, makes no
external API call, and leaves the whole state unchanged. -/
theorem createSubdomainFlow_alreadyTaken (db : DB) (input : CreateSubdomainInput)
    (apiSuccess : Bool) (apiMessage newKey password token now : String) (tokenExpires : Nat)
    (d : String) (hdom : db.domain = some d) (hd : d ≠ "")
    (hex : (db.subdomains.any fun kv => kv.2.subdomain == input.subdomain ++ "." ++ d) = true) :
    createSubdomainFlow db input apiSuccess apiMessage newKey password token now tokenExpires =
      (db,
       { success := false
         message := "The subdomain '" ++ (input.subdomain ++ "." ++ d) ++ "' is already taken. Please choose another one."
         subdomain := none },
       false) := by
  simp [createSubdomainFlow, hdom, hd, hex]

/-- C7 witness: provisioning label shop with root domain example.com while
shop.example.com exists fails as taken without calling the API. -/
theorem createSubdomainFlow_alreadyTaken_witness :
    createSubdomainFlow dbSub { subdomain := "shop", userId := "u1", serviceId := none }
      true "" "k9" "pw" "tk" "t" 0 =
      (dbSub,
       { success := false
         message := "The subdomain '" ++ ("shop" ++ "." ++ "example.com") ++ "' is already taken. Please choose another one."
         subdomain := none },
       false) :=
  createSubdomainFlow_alreadyTaken dbSub { subdomain := "shop", userId := "u1", serviceId := none }
    true "" "k9" "pw" "tk" "t" 0 "example.com" rfl (by decide) (by decide)

/-- An entry whose key differs from k survives setInvoiceStatus unchanged. -/
theorem mem_setInvoiceStatus_of_ne (l : List (String × Invoice)) (k : String)
    (st : InvoiceStatus) (kv : String × Invoice) (h : kv ∈ l) (hne : kv.1 ≠ k) :
    kv ∈ setInvoiceStatus l k st := by
  have hmem := List.mem_map_of_mem
    (fun kv : String × Invoice => if kv.1 == k then (kv.1, { kv.2 with status := st }) else kv) h
  simpa [setInvoiceStatus, hne] using hmem

/-- Looking up key k after setting its status yields the stored invoice with
the new status. -/
theorem lookupInvoice_setInvoiceStatus (l : List (String × Invoice)) (k : String)
    (st : InvoiceStatus) :
    lookupInvoice (setInvoiceStatus l k st) k
      = (lookupInvoice l k).map fun i => { i with status := st } := by
  induction l with
  | nil => rfl
  | cons kv t ih =>
    by_cases h : kv.1 = k <;>
      simp [setInvoiceStatus, lookupInvoice, List.find?_cons, h] at ih ⊢ <;>
      simpa [setInvoiceStatus, lookupInvoice] using ih

/-- The key delivered by firstInvoiceKeyFor always resolves to a stored
invoice. -/
theorem lookupInvoice_isSome_of_firstKey (l : List (String × Invoice)) (sid k : String)
    (h : firstInvoiceKeyFor l sid = some k) : (lookupInvoice l k).isSome = true := by
  induction l with
  | nil => simp [firstInvoiceKeyFor] at h
  | cons kv t ih =>
    by_cases hs : kv.2.serviceId = sid
    · simp [firstInvoiceKeyFor, List.filter_cons, hs] at h
      simp [lookupInvoice, List.find?_cons, h]
    · simp only [firstInvoiceKeyFor, List.filter_cons] at h
      rw [if_neg (by simp [hs])] at h
      have ht := ih (by simpa [firstInvoiceKeyFor] using h)
      by_cases hk : kv.1 = k
      · simp [lookupInvoice, List.find?_cons, hk]
      · simpa [lookupInvoice, List.find?_cons, hk] using ht

/-- C10: updateServiceStatus with target status Active also marks the first
invoice found for the serviceId as Paid while leaving all other invoices in
place; any other target status leaves the invoices untouched. -/
theorem updateServiceStatus_invoice_sync (db : DB) (userId serviceId : String)
    (st : ServiceStatus) (huid : userId ≠ "") (hsid : serviceId ≠ "") :
    (st = ServiceStatus.Active →
      ∀ k, firstInvoiceKeyFor db.invoices serviceId = some k →
        (lookupInvoice (updateServiceStatus db userId serviceId st).1.invoices k).map Invoice.status
            = some InvoiceStatus.Paid
        ∧ ∀ kv ∈ db.invoices, kv.1 ≠ k → kv ∈ (updateServiceStatus db userId serviceId st).1.invoices)
    ∧ (st ≠ ServiceStatus.Active →
        (updateServiceStatus db userId serviceId st).1.invoices = db.invoices) := by
  constructor
  · intro hst k hk
    subst hst
    have hpay : (updateServiceStatus db userId serviceId ServiceStatus.Active).1.invoices
        = setInvoiceStatus db.invoices k InvoiceStatus.Paid := by
      simp [updateServiceStatus, huid, hsid, payFirstInvoice, hk]
    rw [hpay]
    constructor
    · rw [lookupInvoice_setInvoiceStatus]
      rcases Option.isSome_iff_exists.mp (lookupInvoice_isSome_of_firstKey db.invoices serviceId k hk)
        with ⟨i, hi⟩
      simp [hi]
    · intro kv hkv hne
      exact mem_setInvoiceStatus_of_ne _ _ _ _ hkv hne
  · intro hst
    have hb : (st == ServiceStatus.Active) = false := by
      cases st <;> simp_all
    simp [updateServiceStatus, huid, hsid, hb]

/-- C10 witness: activating s1 at the concrete pending state marks invoice i1
as Paid. -/
theorem updateServiceStatus_invoice_sync_witness :
    (lookupInvoice (updateServiceStatus dbPaid "u1" "s1" ServiceStatus.Active).1.invoices "i1").map
        Invoice.status = some InvoiceStatus.Paid :=
  ((updateServiceStatus_invoice_sync dbPaid "u1" "s1" ServiceStatus.Active
      (by decide) (by decide)).1 rfl "i1" (by decide)).1

/-- Setting the same service status twice is the same as setting it once. -/
theorem setServiceStatus_idem (l : List SvcEntry) (u s : String) (st : ServiceStatus) :
    setServiceStatus (setServiceStatus l u s st) u s st = setServiceStatus l u s st := by
  unfold setServiceStatus
  rw [List.map_map]
  apply List.map_congr_left
  intro e _
  by_cases h : (e.userId == u && e.serviceId == s) = true
  · simp [Function.comp, h]
  · simp [Function.comp, h]

/-- Setting an invoice status twice under the same key is the same as once. -/
theorem setInvoiceStatus_idem (l : List (String × Invoice)) (k : String) (st : InvoiceStatus) :
    setInvoiceStatus (setInvoiceStatus l k st) k st = setInvoiceStatus l k st := by
  unfold setInvoiceStatus
  rw [List.map_map]
  apply List.map_congr_left
  intro kv _
  by_cases h : (kv.1 == k) = true
  · simp [Function.comp, h]
  · simp [Function.comp, h]

/-- Setting an invoice status preserves which key the first invoice for a
serviceId is found under. -/
theorem firstInvoiceKeyFor_setInvoiceStatus (l : List (String × Invoice)) (k : String)
    (st : InvoiceStatus) (sid : String) :
    firstInvoiceKeyFor (setInvoiceStatus l k st) sid = firstInvoiceKeyFor l sid := by
  induction l with
  | nil => rfl
  | cons kv t ih =>
    by_cases h1 : kv.1 = k <;> by_cases h2 : kv.2.serviceId = sid <;>
      simp [setInvoiceStatus, firstInvoiceKeyFor, List.filter_cons, h1, h2] at ih ⊢ <;>
      simpa [setInvoiceStatus, firstInvoiceKeyFor] using ih

/-- Paying the first matching invoice is idempotent. -/
theorem payFirstInvoice_idem (l : List (String × Invoice)) (sid : String) :
    payFirstInvoice (payFirstInvoice l sid) sid = payFirstInvoice l sid := by
  unfold payFirstInvoice
  cases h : firstInvoiceKeyFor l sid with
  | none => simp [h]
  | some k => simp [h, firstInvoiceKeyFor_setInvoiceStatus, setInvoiceStatus_idem]

/-- After paying the first invoice for sid found under key k, the invoice at
key k reads Paid. -/
theorem payFirstInvoice_paid (l : List (String × Invoice)) (sid k : String)
    (h : firstInvoiceKeyFor l sid = some k) :
    (lookupInvoice (payFirstInvoice l sid) k).map Invoice.status = some InvoiceStatus.Paid := by
  unfold payFirstInvoice
  rw [h, lookupInvoice_setInvoiceStatus]
  rcases Option.isSome_iff_exists.mp (lookupInvoice_isSome_of_firstKey l sid k h) with ⟨i, hi⟩
  simp [hi]

/-- Looking a service up after a status write yields the stored entry with
the new status. -/
theorem lookupService_setServiceStatus (l : List SvcEntry) (u s : String) (st : ServiceStatus) :
    lookupService (setServiceStatus l u s st) u s
      = (lookupService l u s).map fun e => { e with svc := { e.svc with status := st } } := by
  induction l with
  | nil => rfl
  | cons e t ih =>
    by_cases h1 : e.userId = u <;> by_cases h2 : e.serviceId = s <;>
      simp [setServiceStatus, lookupService, List.find?_cons, h1, h2] at ih ⊢ <;>
      simpa [setServiceStatus, lookupService] using ih

/-- C3: the webhook handler is idempotent on a valid successful-payment event
with complete metadata: a second delivery leaves the state of the first,
both deliveries are acknowledged as received, and after the first delivery
the service reads Active and the located invoice reads Paid. -/
theorem webhookPOST_replay_idempotent (db : DB) (sk ws sig : String) (ev : WebhookEvent)
    (hsk : sk ≠ "") (hws : ws ≠ "")
    (htype : ev.type = "checkout.session.completed")
    (hu : ev.muserId ≠ "") (hp : ev.mplanId ≠ "") (hs : ev.mserviceId ≠ "")
    (e : SvcEntry) (hsvc : lookupService db.services ev.muserId ev.mserviceId = some e)
    (k : String) (hinv : firstInvoiceKeyFor db.invoices ev.mserviceId = some k) :
    (webhookPOST (webhookPOST db (some sk) (some ws) (some sig) (some ev)).1
        (some sk) (some ws) (some sig) (some ev)).1
      = (webhookPOST db (some sk) (some ws) (some sig) (some ev)).1
    ∧ (webhookPOST db (some sk) (some ws) (some sig) (some ev)).2 = WebhookResp.received
    ∧ (webhookPOST (webhookPOST db (some sk) (some ws) (some sig) (some ev)).1
        (some sk) (some ws) (some sig) (some ev)).2 = WebhookResp.received
    ∧ (lookupService (webhookPOST db (some sk) (some ws) (some sig) (some ev)).1.services
        ev.muserId ev.mserviceId).map (fun e => e.svc.status) = some ServiceStatus.Active
    ∧ (lookupInvoice (webhookPOST db (some sk) (some ws) (some sig) (some ev)).1.invoices k).map
        Invoice.status = some InvoiceStatus.Paid := by
  have hred : ∀ d : DB, webhookPOST d (some sk) (some ws) (some sig) (some ev)
      = ({ d with
            invoices := payFirstInvoice d.invoices ev.mserviceId
            services := setServiceStatus d.services ev.muserId ev.mserviceId ServiceStatus.Active },
         WebhookResp.received) := by
    intro d
    simp [webhookPOST, handleEvent, hsk, hws, htype, hu, hp, hs]
  refine ⟨?_, ?_, ?_, ?_, ?_⟩
  · simp only [hred]
    simp [payFirstInvoice_idem, setServiceStatus_idem]
  · simp only [hred]
  · simp only [hred]
  · simp only [hred]
    simp [lookupService_setServiceStatus, hsvc]
  · simp only [hred]
    simp [payFirstInvoice_paid db.invoices ev.mserviceId k hinv]

/-- C3 witness: replaying the sample successful-payment webhook on the
concrete pending state reproduces the state of the first delivery. -/
theorem webhookPOST_replay_idempotent_witness :
    (webhookPOST (webhookPOST dbPaid (some "sk") (some "ws") (some "sig") (some sampleEvent)).1
        (some "sk") (some "ws") (some "sig") (some sampleEvent)).1
      = (webhookPOST dbPaid (some "sk") (some "ws") (some "sig") (some sampleEvent)).1 :=
  (webhookPOST_replay_idempotent dbPaid "sk" "ws" "sig" sampleEvent
      (by decide) (by decide) rfl (by decide) (by decide) (by decide)
      ⟨"u1", "s1", samplePendingService⟩ (by decide) "i1" (by decide)).1

/-- Unfolding equation of splitHyphen on a cons cell, with a propositional
condition. -/
theorem splitHyphen_cons (c : Char) (rest : List Char) :
    splitHyphen (c :: rest) =
      if c = '-' then [] :: splitHyphen rest
      else
        match splitHyphen rest with
        | g :: gs => (c :: g) :: gs
        | [] => [[c]] := by
  by_cases hc : c = '-' <;> simp [splitHyphen, hc]

/-- splitHyphen never returns the empty list of groups. -/
theorem splitHyphen_ne_nil (cs : List Char) : ∃ g gs, splitHyphen cs = g :: gs := by
  induction cs with
  | nil => exact ⟨[], [], rfl⟩
  | cons c rest ih =>
    obtain ⟨g, gs, h⟩ := ih
    by_cases hc : c = '-'
    · exact ⟨[], g :: gs, by simp [splitHyphen, hc, h]⟩
    · exact ⟨c :: g, gs, by simp [splitHyphen, hc, h]⟩

/-- splitHyphen of a non-empty list is never the single empty group. -/
theorem splitHyphen_cons_ne_single (d : Char) (ds : List Char) :
    splitHyphen (d :: ds) ≠ [[]] := by
  obtain ⟨g, gs, h⟩ := splitHyphen_ne_nil ds
  by_cases hd : d = '-'
  · simp [splitHyphen, hd, h]
  · simp [splitHyphen, hd, h]

/-- A character other than a hyphen lands in one of the hyphen groups. -/
theorem mem_group_of_mem (cs : List Char) (c : Char) (hc : c ∈ cs) (hne : c ≠ '-') :
    ∃ g ∈ splitHyphen cs, c ∈ g := by
  induction cs with
  | nil => cases hc
  | cons x rest ih =>
    obtain ⟨g, gs, h⟩ := splitHyphen_ne_nil rest
    rcases List.mem_cons.mp hc with rfl | hmem
    · exact ⟨c :: g, by simp [splitHyphen, hne, h], by simp⟩
    · obtain ⟨g2, hg2, hcg2⟩ := ih hmem
      by_cases hx : x = '-'
      · refine ⟨g2, ?_, hcg2⟩
        simp only [splitHyphen, hx]
        simp [hg2]
      · rw [h] at hg2
        rcases List.mem_cons.mp hg2 with rfl | hgs
        · exact ⟨x :: g2, by simp [splitHyphen, hx, h], by simp [hcg2]⟩
        · exact ⟨g2, by simp [splitHyphen, hx, h, hgs], hcg2⟩

/-- When the character list ends in a hyphen, the last hyphen group is empty. -/
theorem splitHyphen_getLast_of_trailing (cs : List Char) (h : cs.getLast? = some '-') :
    (splitHyphen cs).getLast? = some [] := by
  induction cs with
  | nil => simp at h
  | cons c rest ih =>
    cases rest with
    | nil =>
      simp [List.getLast?_singleton] at h
      subst h
      rfl
    | cons d ds =>
      have h' : (d :: ds).getLast? = some '-' := by
        rwa [List.getLast?_cons_cons] at h
      have ihl := ih h'
      obtain ⟨g, gs, hsp⟩ := splitHyphen_ne_nil (d :: ds)
      by_cases hc : c = '-'
      · rw [splitHyphen_cons, if_pos hc, hsp, List.getLast?_cons_cons]
        rwa [hsp] at ihl
      · rw [show splitHyphen (c :: d :: ds) = (c :: g) :: gs by
          rw [splitHyphen_cons, if_neg hc, hsp]]
        rw [hsp] at ihl
        cases gs with
        | nil =>
          simp [List.getLast?_singleton] at ihl
          subst ihl
          exact absurd hsp (splitHyphen_cons_ne_single d ds)
        | cons g2 gs2 =>
          rw [List.getLast?_cons_cons]
          rwa [List.getLast?_cons_cons] at ihl

/-- A group failing the per-group test falsifies the whole label regex. -/
theorem labelRegexOk_false_of_group (cs : List Char) (g : List Char)
    (hg : g ∈ splitHyphen cs) (hbad : (!g.isEmpty && g.all isLowerDigit) = false) :
    labelRegexOk cs = false := by
  unfold labelRegexOk
  rw [Bool.eq_false_iff]
  intro hall
  rw [List.all_eq_true] at hall
  have hthis := hall g hg
  simp only [hbad] at hthis
  cases hthis

/-- Any of the documented label violations falsifies the zod validation. -/
theorem validLabel_false_of_violation (s : String)
    (h : s.data.length < 3 ∨ 30 < s.data.length
       ∨ (∃ c ∈ s.data, isLowerDigit c = false ∧ c ≠ '-')
       ∨ s.data.head? = some '-'
       ∨ s.data.getLast? = some '-') :
    validLabel s = false := by
  rcases h with h | h | ⟨c, hc, hbad, hneh⟩ | h | h
  · rw [validLabel, show (decide (3 ≤ s.data.length)) = false from decide_eq_false (by omega)]
    simp
  · rw [validLabel, show (decide (s.data.length ≤ 30)) = false from decide_eq_false (by omega)]
    simp
  · obtain ⟨g, hg, hcg⟩ := mem_group_of_mem s.data c hc hneh
    have hgall : g.all isLowerDigit = false := by
      rw [Bool.eq_false_iff]
      intro hall
      rw [List.all_eq_true] at hall
      have hd := hall c hcg
      simp only [hbad] at hd
      cases hd
    have hre : labelRegexOk s.data = false :=
      labelRegexOk_false_of_group s.data g hg (by simp [hgall])
    simp [validLabel, hre]
  · have hre : labelRegexOk s.data = false := by
      cases hd : s.data with
      | nil => rw [hd] at h; simp at h
      | cons c rest =>
        rw [hd] at h
        simp only [List.head?_cons, Option.some.injEq] at h
        subst h
        obtain ⟨g, gs, hsp⟩ := splitHyphen_ne_nil rest
        exact labelRegexOk_false_of_group _ [] (by simp [splitHyphen, hsp]) (by simp)
    simp [validLabel, hre]
  · have hlast : (splitHyphen s.data).getLast? = some [] :=
      splitHyphen_getLast_of_trailing _ h
    have hmem : ([] : List Char) ∈ splitHyphen s.data := by
      rcases List.mem_getLast?_eq_getLast (l := splitHyphen s.data) (x := ([] : List Char))
          (by simp [hlast]) with ⟨hne, heq⟩
      rw [heq]
      exact List.getLast_mem hne
    have hre : labelRegexOk s.data = false :=
      labelRegexOk_false_of_group _ [] hmem (by simp)
    simp [validLabel, hre]

/-- C6: a label violating the rules — shorter than 3 or longer than 30
characters, containing a character outside lowercase alphanumerics and
hyphens, or starting or ending with a hyphen — is rejected by
createSubdomain before the flow runs: the state is unchanged and the
external provisioning API is not called. -/
theorem createSubdomain_invalid_label_rejected (db : DB) (input : CreateSubdomainInput)
    (apiSuccess : Bool) (apiMessage newKey password token now : String) (tokenExpires : Nat)
    (h : input.subdomain.data.length < 3 ∨ 30 < input.subdomain.data.length
       ∨ (∃ c ∈ input.subdomain.data, isLowerDigit c = false ∧ c ≠ '-')
       ∨ input.subdomain.data.head? = some '-'
       ∨ input.subdomain.data.getLast? = some '-') :
    createSubdomain db input apiSuccess apiMessage newKey password token now tokenExpires =
      (db, Except.error "Invalid input: the subdomain label or user ID failed validation.", false) := by
  have hv : validLabel input.subdomain = false := validLabel_false_of_violation _ h
  simp [createSubdomain, hv]

/-- C6 witness: the label of the spec scenario, containing an uppercase
letter and a space, is rejected before any external call. -/
theorem createSubdomain_invalid_label_rejected_witness :
    createSubdomain dbEmptySub { subdomain := "My Site", userId := "u1", serviceId := none }
      true "" "k1" "pw" "tk" "t" 0 =
      (dbEmptySub, Except.error "Invalid input: the subdomain label or user ID failed validation.", false) :=
  createSubdomain_invalid_label_rejected dbEmptySub
    { subdomain := "My Site", userId := "u1", serviceId := none }
    true "" "k1" "pw" "tk" "t" 0 (Or.inr (Or.inr (Or.inl (by decide))))

/-- C8 counterexample: in the concrete state dbPanel the service s1 belongs
to u1 and has a subdomain but its status is Suspended — not Active — yet
handleAquaPanelLogin issues credentials instead of failing. -/
theorem handleAquaPanelLogin_status_counterexample :
    (lookupService dbPanel.services "u1" "s1").map (fun e => e.svc.status)
        = some ServiceStatus.Suspended
    ∧ (handleAquaPanelLogin dbPanel "u1" "s1" "pw" "tk" 0).2.success = true
    ∧ (handleAquaPanelLogin dbPanel "u1" "s1" "pw" "tk" 0).2.password = some "pw" := by
  exact ⟨rfl, rfl, rfl⟩

/-- C8 (amended): handleAquaPanelLogin fails when the service is not stored
under the given user or has no subdomain, and issues credentials whenever
the service belongs to the user and has a non-empty subdomain — the
service status is not examined. -/
theorem handleAquaPanelLogin_preconditions (db : DB) (uid sid pw tk : String) (now : Nat)
    (huid : uid ≠ "") (hsid : sid ≠ "") :
    (lookupService db.services uid sid = none →
      handleAquaPanelLogin db uid sid pw tk now = (db, loginFailure "Service not found."))
    ∧ (∀ e, lookupService db.services uid sid = some e → e.svc.subdomain = "" →
      handleAquaPanelLogin db uid sid pw tk now
        = (db, loginFailure "No subdomain is assigned to this service."))
    ∧ (∀ e, lookupService db.services uid sid = some e → e.svc.subdomain ≠ "" →
      (handleAquaPanelLogin db uid sid pw tk now).2.success = true) := by
  refine ⟨?_, ?_, ?_⟩
  · intro hnone
    simp [handleAquaPanelLogin, huid, hsid, hnone]
  · intro e he hsub
    simp [handleAquaPanelLogin, huid, hsid, he, hsub]
  · intro e he hsub
    simp [handleAquaPanelLogin, huid, hsid, he, hsub]

/-- C8 witness: the amended characterization applied at the concrete
suspended-but-subdomained state issues credentials. -/
theorem handleAquaPanelLogin_preconditions_witness :
    (handleAquaPanelLogin dbPanel "u1" "s1" "pw" "tk" 0).2.success = true :=
  (handleAquaPanelLogin_preconditions dbPanel "u1" "s1" "pw" "tk" 0
      (by decide) (by decide)).2.2
    ⟨"u1", "s1", sampleSuspendedWithSub⟩ (by decide) (by decide)

/-- C9 counterexample: from a reachable start with no subdomain records, two
successful createSubdomainFlow calls with different labels but the same
serviceId leave two Subdomain records both referencing the non-empty
serviceId s1, so serviceId references are not unique. -/
theorem createSubdomainFlow_duplicate_serviceId :
    dbEmptySub.subdomains = []
    ∧ ((runFlows dbEmptySub [callShop, callBlog]).subdomains.filter
        fun kv => kv.2.serviceId == some "s1").length = 2 := by
  exact ⟨rfl, rfl⟩

/-- One createSubdomainFlow call either leaves the subdomain records
unchanged (any failure branch) or appends exactly one record whose
fully-qualified name the collision check just proved absent. -/
theorem runFlow_subdomains_cases (db : DB) (c : FlowCall) :
    (runFlow db c).subdomains = db.subdomains
    ∨ ∃ key rec1, (db.subdomains.any fun kv => kv.2.subdomain == rec1.subdomain) = false
        ∧ (runFlow db c).subdomains = db.subdomains ++ [(key, rec1)] := by
  by_cases hdom : (db.domain.getD "" == "") = true
  · left; simp [runFlow, createSubdomainFlow, hdom]
  · by_cases htaken : (db.subdomains.any
        fun kv => kv.2.subdomain == c.input.subdomain ++ "." ++ db.domain.getD "") = true
    · left; simp [runFlow, createSubdomainFlow, hdom, htaken]
    · by_cases hapi : c.apiSuccess = true
      · right
        refine ⟨c.newKey,
          { userId := c.input.userId
            subdomain := c.input.subdomain ++ "." ++ db.domain.getD ""
            createdAt := c.now
            status := "Active"
            serviceId := c.input.serviceId }, ?_, ?_⟩
        · simpa using htaken
        · cases hs : c.input.serviceId <;>
            simp [runFlow, createSubdomainFlow, hdom, htaken, hapi, hs]
      · left
        have hapi' : c.apiSuccess = false := by
          revert hapi; cases c.apiSuccess <;> simp
        simp [runFlow, createSubdomainFlow, hdom, htaken, hapi']

/-- One createSubdomainFlow call preserves pairwise-distinct fully-qualified
names. -/
theorem runFlow_namesNodup (db : DB) (c : FlowCall) (h : namesNodup db) :
    namesNodup (runFlow db c) := by
  unfold namesNodup at h ⊢
  rcases runFlow_subdomains_cases db c with heq | ⟨key, rec1, hany, heq⟩
  · rw [heq]; exact h
  · rw [heq, List.map_append, List.nodup_append]
    refine ⟨h, by simp, ?_⟩
    intro a ha hb
    simp only [List.map_cons, List.map_nil, List.mem_singleton] at hb
    subst hb
    rw [List.mem_map] at ha
    obtain ⟨kv, hkv, hname⟩ := ha
    have hcontr : (db.subdomains.any fun kv => kv.2.subdomain == rec1.subdomain) = true := by
      rw [List.any_eq_true]
      exact ⟨kv, hkv, by simp [hname]⟩
    rw [hany] at hcontr
    cases hcontr

/-- C9 (amended): what createSubdomainFlow does keep unique is the
fully-qualified name: every state reachable by a sequence of flow calls
from a state with pairwise-distinct subdomain names again has
pairwise-distinct names (the serviceId field is not deduplicated, per the
counterexample). -/
theorem runFlows_namesNodup (db : DB) (calls : List FlowCall) (h : namesNodup db) :
    namesNodup (runFlows db calls) := by
  induction calls generalizing db with
  | nil => exact h
  | cons c cs ih => exact ih (runFlow db c) (runFlow_namesNodup db c h)

/-- C9 witness: the name-uniqueness invariant holds after the two concrete
flow calls from the empty start state. -/
theorem runFlows_namesNodup_witness :
    namesNodup (runFlows dbEmptySub [callShop, callBlog]) :=
  runFlows_namesNodup dbEmptySub [callShop, callBlog] (by unfold namesNodup; decide)

